import Mathlib

/-!
Verification of the sockeye early-stopping trainer (`src/sockeye/training.py`).

This development gives a shallow embedding of the training-loop controller of
`sockeye/training.py` (class `GluonEarlyStoppingTrainer` together with its
persistent state `TrainState`) and proves the frozen claims about it.

Modelling conventions:
* Python `float` values that can be NaN or infinite are embedded as `PyFloat`
  (a rational tagged with the three IEEE special values); Python comparison and
  arithmetic semantics on them (NaN is absorbing, comparisons with NaN are
  false) are spelled out below.
* Counters (`batches`, `updates`, `samples`, `epoch`, `checkpoint`, ...) are
  Python ints that the code only ever increments from 0, embedded as `Nat`.
* The external collaborators that are out of the spec's scope (the model, the
  optimizer, gradients, file contents) are not represented: only their effect
  on the Progress Ledger (`TrainState`) is modelled.  Wall-clock time is
  exogenous: the active time spent reaching each checkpoint is a parameter of
  the environment.
-/

namespace Sockeye

/-- An IEEE-754-style Python float value: NaN, +inf, -inf, or a finite value
(embedded as a rational). -/
inductive PyFloat where
  | nan : PyFloat
  | inf : PyFloat
  | ninf : PyFloat
  | fin : ℚ → PyFloat
deriving DecidableEq

namespace PyFloat

/-- `np.isfinite` (training.py:512): true exactly on finite values. -/
def isfinite : PyFloat → Bool
  | fin _ => true
  | _ => false

/-- Python `<` on floats: any comparison involving NaN is false;
-inf < finite < +inf; finite values compare as rationals. -/
def lt : PyFloat → PyFloat → Bool
  | nan, _ => false
  | _, nan => false
  | ninf, ninf => false
  | ninf, inf => true
  | ninf, fin _ => true
  | inf, _ => false
  | fin _, inf => true
  | fin _, ninf => false
  | fin a, fin b => decide (a < b)

/-- Python `<=` on floats: `x <= y` iff `x < y` or `x == y`, except that any
comparison involving NaN is false. -/
def le : PyFloat → PyFloat → Bool
  | nan, _ => false
  | _, nan => false
  | x, y => lt x y || decide (x = y)

/-- Python subtraction on floats: NaN is absorbing, `inf - inf = nan`,
`(-inf) - (-inf) = nan`, infinities dominate finite values. -/
def sub : PyFloat → PyFloat → PyFloat
  | nan, _ => nan
  | _, nan => nan
  | inf, inf => nan
  | inf, ninf => inf
  | inf, fin _ => inf
  | ninf, inf => ninf
  | ninf, ninf => nan
  | ninf, fin _ => ninf
  | fin _, inf => ninf
  | fin _, ninf => inf
  | fin a, fin b => fin (a - b)

/-- Python `abs` on floats. -/
def pabs : PyFloat → PyFloat
  | nan => nan
  | inf => inf
  | ninf => inf
  | fin a => fin |a|

end PyFloat

/-- Modelled from the spec: `sockeye/loss.py` is not under `src/`; §3 of the
spec describes a Loss Metric as "name, accumulated value, accumulated sample
count; `get()` returns the running mean".  Only the name and the value
returned by `get()` are ever read by the code under verification, so the
running mean is carried directly as `value`. -/
structure LossMetric where
  name : String
  value : PyFloat
deriving DecidableEq

/-- The trainer configuration (`TrainerConfig`, training.py:47-83), restricted
to the fields the training-loop controller reads.  `maximizeMetric` stands for
`C.METRIC_MAXIMIZE[early_stopping_metric]` (constants.py, not under `src/`;
modelled from the spec: the improvement direction "is a fixed property of the
metric name"). -/
structure TrainerConfig where
  earlyStoppingMetric : String
  checkpointInterval : ℕ
  maxNumCheckpointNotImproved : Option ℤ
  checkpointImprovementThreshold : PyFloat
  maxCheckpoints : Option ℕ
  minSamples : Option ℕ
  maxSamples : Option ℕ
  minUpdates : Option ℕ
  maxUpdates : Option ℕ
  minEpochs : Option ℕ
  maxEpochs : Option ℕ
  maxSeconds : Option ℚ
  updateInterval : ℕ
  maximizeMetric : Bool
deriving DecidableEq

/-- The Progress Ledger (`TrainState`, training.py:86-144).  All `__slots__`
fields are carried except `gradients` (a dict of device tensors, out of the
spec's scope).  `ticLast` is `_tic_last_time_elapsed` and `timeElapsed` is
`_time_elapsed`; `metrics` keeps the per-checkpoint metric records appended by
`_write_metrics_file`. -/
structure TrainState where
  numNotImproved : ℕ
  epoch : ℕ
  checkpoint : ℕ
  bestCheckpoint : ℕ
  batches : ℕ
  updates : ℕ
  samples : ℕ
  gradientNorm : Option PyFloat
  metrics : List (List (String × PyFloat))
  startTic : ℚ
  ticLast : ℚ
  timeElapsed : ℚ
  earlyStoppingMetric : String
  bestMetric : PyFloat
  bestMetricHistory : List PyFloat
  converged : Bool
  diverged : Bool
deriving DecidableEq

namespace TrainState

/-- `TrainState.__init__` (training.py:96-117).  `worst` stands for
`C.METRIC_WORST[early_stopping_metric]` (constants.py, not under `src/`);
`now` is the value of `time.time()` at construction. -/
def init (metric : String) (worst : PyFloat) (now : ℚ) : TrainState :=
  { numNotImproved := 0
    epoch := 0
    checkpoint := 0
    bestCheckpoint := 0
    batches := 0
    updates := 0
    samples := 0
    gradientNorm := none
    metrics := []
    startTic := now
    ticLast := now
    timeElapsed := 0
    earlyStoppingMetric := metric
    bestMetric := worst
    bestMetricHistory := [worst]
    converged := false
    diverged := false }

/-- `TrainState.update_time_elapsed` (training.py:137-140): fold the time
since the last anchor into `_time_elapsed` and reset the anchor. -/
def updateTimeElapsed (now : ℚ) (s : TrainState) : TrainState :=
  { s with timeElapsed := s.timeElapsed + (now - s.ticLast), ticLast := now }

/-- `TrainState.save` (training.py:119-125): the pickled snapshot is the state
after `update_time_elapsed`; the in-memory state is mutated identically. -/
def save (now : ℚ) (s : TrainState) : TrainState :=
  s.updateTimeElapsed now

/-- `TrainState.load` (training.py:127-135): unpickling restores every field
of the snapshot, then `_tic_last_time_elapsed` is reset to the current time so
that downtime between exit and resume is not counted. -/
def load (now : ℚ) (snapshot : TrainState) : TrainState :=
  { snapshot with ticLast := now }

end TrainState

/-- A training batch; only the fields read by `_step` are kept
(`batch.samples`, `batch.tokens`). -/
structure Batch where
  samples : ℕ
  tokens : ℕ
deriving DecidableEq

/-- `GluonEarlyStoppingTrainer._step` (training.py:321-351), restricted to its
effect on the ledger: increment `batches`; apply an optimizer update (and
increment `updates`) iff `update_interval == 1 or batches % update_interval ==
0`; add `batch.samples` to `samples`.  The forward-backward pass, the bandit
reward and the loss-metric accumulation act only on out-of-scope
collaborators. -/
def step (cfg : TrainerConfig) (b : Batch) (s : TrainState) : TrainState :=
  let s := { s with batches := s.batches + 1 }
  let s :=
    if cfg.updateInterval = 1 || s.batches % cfg.updateInterval = 0 then
      { s with updates := s.updates + 1 }
    else s
  { s with samples := s.samples + b.samples }

/-- Folding `_step` over a sequence of batches. -/
def runSteps (cfg : TrainerConfig) (bs : List Batch) (s : TrainState) : TrainState :=
  bs.foldl (fun s b => step cfg b s) s

/-- `C.PERPLEXITY` (constants.py, not under `src/`; the exact string is
irrelevant to the claims, only name matching is). -/
def PERPLEXITY : String := "perplexity"

/-- Modelled from the spec: `utils.metric_value_is_better` (utils.py, not
under `src/`): "compare its freshly computed value against the ledger's
current best using the metric's known improvement direction (some metrics are
lower-is-better, others higher-is-better)" — strictly better in that
direction, with Python float comparison semantics. -/
def valueIsBetter (maximize : Bool) (newValue old : PyFloat) : Bool :=
  if maximize then PyFloat.lt old newValue else PyFloat.lt newValue old

/-- Python `metric_name not in val_metrics` (training.py:396) tests membership
of a `str` in a list of `LossMetric` objects.  `LossMetric` (a plain data
record per §3 of the spec, with no equality against strings) is never equal to
a `str` under Python's default identity-based fallback, so each element-wise
comparison is False. -/
def strEqLossMetric (_ : String) (_ : LossMetric) : Bool := false

/-- The checkpoint-decoder merge step of `_evaluate` (training.py:392-399):
for each decoder metric, `assert metric_name not in val_metrics` (an `Except`
error models the fatal assertion), then append a fresh `LossMetric` holding
the decoder's value (`update(value, num_samples=1)` makes `get()` return the
value itself). -/
def mergeDecoderMetrics (valMetrics : List LossMetric) :
    List (String × PyFloat) → Except String (List LossMetric)
  | [] => Except.ok valMetrics
  | nv :: rest =>
    if valMetrics.any (fun m => strEqLossMetric nv.1 m) then
      Except.error "Duplicate validation metric"
    else
      mergeDecoderMetrics (valMetrics ++ [{ name := nv.1, value := nv.2 }]) rest

/-- The loop of `_determine_improvement` (training.py:417-443), non-distributed
path (the Horovod branch broadcasts the same boolean, per §4.5 of the spec).
The accumulator carries Python's `value`, `value_is_better` and the mutated
state: for each metric whose name equals the early-stopping metric, recompute
`value` and `value_is_better`, and on improvement set
`best_metric`/`best_checkpoint` and reset `num_not_improved`. -/
def improvementScanFrom (cfg : TrainerConfig) (acc : Option PyFloat × Bool × TrainState) :
    List LossMetric → Option PyFloat × Bool × TrainState
  | [] => acc
  | m :: rest =>
    if m.name = cfg.earlyStoppingMetric then
      let valueIsBetterNow := valueIsBetter cfg.maximizeMetric m.value acc.2.2.bestMetric
      if valueIsBetterNow then
        improvementScanFrom cfg
          (some m.value, valueIsBetterNow,
            { acc.2.2 with
                bestMetric := m.value
                bestCheckpoint := acc.2.2.checkpoint
                numNotImproved := 0 })
          rest
      else
        improvementScanFrom cfg (some m.value, valueIsBetterNow, acc.2.2) rest
    else improvementScanFrom cfg acc rest

/-- The loop of `_determine_improvement`, started from the loop's initial
accumulator (`value = None`, `value_is_better = False`). -/
def improvementScan (cfg : TrainerConfig) (s : TrainState) (valMetrics : List LossMetric) :
    Option PyFloat × Bool × TrainState :=
  improvementScanFrom cfg (none, false, s) valMetrics

/-- The unconditional tail of `_determine_improvement` (training.py:449-453):
append the current best value to `best_metric_history` and pop the oldest
entry once the window exceeds `max_num_checkpoint_not_improved + 1`. -/
def historyUpdate (cfg : TrainerConfig) (s : TrainState) : TrainState :=
  let s3 := { s with bestMetricHistory := s.bestMetricHistory ++ [s.bestMetric] }
  match cfg.maxNumCheckpointNotImproved with
  | some patience =>
    if (s3.bestMetricHistory.length : ℤ) > patience + 1 then
      { s3 with bestMetricHistory := s3.bestMetricHistory.tail }
    else s3
  | none => s3

/-- `GluonEarlyStoppingTrainer._determine_improvement` (training.py:410-455):
scan the validation metrics; the assertion that the early-stopping metric was
found (training.py:444) is modelled as an `Except` error; on non-improvement
increment `num_not_improved`; finally apply the history-window update. -/
def determineImprovement (cfg : TrainerConfig) (valMetrics : List LossMetric)
    (s : TrainState) : Except String (Bool × TrainState) :=
  match improvementScan cfg s valMetrics with
  | (none, _, _) => Except.error "Early stopping metric not found in validation metrics."
  | (some _, valueIsBetterFinal, s1) =>
    let s2 :=
      if valueIsBetterFinal then s1
      else { s1 with numNotImproved := s1.numNotImproved + 1 }
    Except.ok (valueIsBetterFinal, historyUpdate cfg s2)

/-- Iterating `_determine_improvement` over the per-checkpoint validation
metric sets of a run (on the fatal assertion the process stops and the ledger
keeps its last value). -/
def runImprovements (cfg : TrainerConfig) (css : List (List LossMetric))
    (s : TrainState) : TrainState :=
  css.foldl
    (fun s ms =>
      match determineImprovement cfg ms s with
      | Except.ok (_, s') => s'
      | Except.error _ => s)
    s

/-- One configured-minimum check of `_determine_convergence`: the minimum is
configured and not reached yet. -/
def minUnmet (minCfg : Option ℕ) (current : ℕ) : Bool :=
  match minCfg with
  | some m => decide (current < m)
  | none => false

/-- `GluonEarlyStoppingTrainer._determine_convergence` (training.py:457-499),
non-distributed path: required minimums first (samples, updates, epochs, the
first unmet one returning False), then, if `max_num_checkpoint_not_improved`
is configured (non-None and ≥ 0) and at least that many checkpoints have
elapsed, converged iff
`abs(best_metric - best_metric_history[0]) <= checkpoint_improvement_threshold`.
`best_metric_history[0]` on an empty deque would raise in Python; the history
is never empty for any state the trainer constructs, and the `nan` default
makes the comparison False in that unreachable case. -/
def determineConvergence (cfg : TrainerConfig) (s : TrainState) : Bool :=
  if minUnmet cfg.minSamples s.samples then false
  else if minUnmet cfg.minUpdates s.updates then false
  else if minUnmet cfg.minEpochs s.epoch then false
  else
    match cfg.maxNumCheckpointNotImproved with
    | none => false
    | some patience =>
      if 0 ≤ patience && patience ≤ (s.checkpoint : ℤ) then
        let windowImprovement :=
          (s.bestMetric.sub (s.bestMetricHistory.headD PyFloat.nan)).pabs
        windowImprovement.le cfg.checkpointImprovementThreshold
      else false

/-- `GluonEarlyStoppingTrainer._determine_divergence` (training.py:501-515):
`last_ppl` starts as NaN and is set to the first metric named perplexity (the
loop breaks at the first match); diverged iff `last_ppl` is non-finite or
exceeds `2 * vocab_target_size`. -/
def determineDivergence (vocabTargetSize : ℕ) (valMetrics : List LossMetric) : Bool :=
  let lastPpl :=
    match valMetrics.find? (fun m => m.name = PERPLEXITY) with
    | some m => m.value
    | none => PyFloat.nan
  !lastPpl.isfinite || PyFloat.lt (PyFloat.fin (2 * (vocabTargetSize : ℚ))) lastPpl

/-- Which budget-exhaustion break of the main `while` loop fired. -/
inductive StopReason where
  | maxEpochs : StopReason
  | maxUpdates : StopReason
  | maxSamples : StopReason
deriving DecidableEq

/-- The first break of the `fit` loop (training.py:213-215):
`max_epochs is not None and epoch == max_epochs`. -/
def epochsExhausted (cfg : TrainerConfig) (s : TrainState) : Bool :=
  match cfg.maxEpochs with
  | some m => decide (s.epoch = m)
  | none => false

/-- The second break of the `fit` loop (training.py:217-219):
`max_updates is not None and updates == max_updates`. -/
def updatesExhausted (cfg : TrainerConfig) (s : TrainState) : Bool :=
  match cfg.maxUpdates with
  | some m => decide (s.updates = m)
  | none => false

/-- The third break of the `fit` loop (training.py:221-223):
`max_samples is not None and samples >= max_samples`. -/
def samplesExhausted (cfg : TrainerConfig) (s : TrainState) : Bool :=
  match cfg.maxSamples with
  | some m => decide (m ≤ s.samples)
  | none => false

/-- The chain of budget checks run at the top of each `fit` loop iteration,
before a batch is pulled (training.py:212-223), in source order. -/
def budgetExhausted (cfg : TrainerConfig) (s : TrainState) : Option StopReason :=
  if epochsExhausted cfg s then some StopReason.maxEpochs
  else if updatesExhausted cfg s then some StopReason.maxUpdates
  else if samplesExhausted cfg s then some StopReason.maxSamples
  else none

/-- The deterministic environment a `fit` run unfolds in: one epoch of
training data (the iterator wraps around via `reset()`), the validation
metrics `_evaluate` produces at each checkpoint index, and the active
wall-clock time accumulated by the checkpoint's `update_time_elapsed` (the
delta `time.time() - _tic_last_time_elapsed` measured inside
`_save_training_state`; exogenous, since real time is outside the
embedding). -/
structure FitEnv where
  trainData : List Batch
  valMetrics : ℕ → List LossMetric
  checkpointDelta : ℕ → ℚ

/-- The checkpoint boundary body of the `fit` loop (training.py:234-273),
restricted to its effect on the ledger: increment `checkpoint`; evaluate
(`val_metrics` comes from the environment); determine improvement, then
convergence, then divergence; `_save_training_state` folds the active time
into `time_elapsed` (via `TrainState.save`); `_write_metrics_file` appends the
checkpoint's metric record *after* the snapshot was written.  Parameter
persistence, learning-rate adjustment and optimizer-state files act only on
out-of-scope collaborators.  The improvement assertion failure propagates as
an error (the process dies). -/
def checkpointStep (cfg : TrainerConfig) (vocabTargetSize : ℕ) (env : FitEnv)
    (s : TrainState) : Except String TrainState :=
  let s := { s with checkpoint := s.checkpoint + 1 }
  let valMetrics := env.valMetrics s.checkpoint
  match determineImprovement cfg valMetrics s with
  | Except.error e => Except.error e
  | Except.ok (_, s1) =>
    let s2 := { s1 with converged := determineConvergence cfg s1 }
    let s3 := { s2 with diverged := determineDivergence vocabTargetSize valMetrics }
    let s4 := { s3 with timeElapsed := s3.timeElapsed + env.checkpointDelta s3.checkpoint }
    let s5 := { s4 with
      metrics := s4.metrics ++ [valMetrics.map (fun m => (m.name, m.value))] }
    Except.ok s5

/-- The `max_seconds` break of the `fit` loop (training.py:275-278). -/
def secondsExhausted (cfg : TrainerConfig) (s : TrainState) : Bool :=
  match cfg.maxSeconds with
  | some m => decide (m ≤ s.timeElapsed)
  | none => false

/-- The main `while` loop of `GluonEarlyStoppingTrainer.fit`
(training.py:212-283), fuel-based (the fuel bounds the number of iterations;
the code's loop runs until a break fires).  Each iteration: check the budget
breaks; pull the next batch and `_step`; on iterator exhaustion increment
`epoch` and `reset()`; at a checkpoint boundary (`updates > 0` and `batches`
a multiple of `checkpoint_interval * update_interval`) run `checkpointStep`
and then the `max_seconds` and converged/diverged breaks. -/
def fitLoop (cfg : TrainerConfig) (vocabTargetSize : ℕ) (env : FitEnv) :
    ℕ → TrainState → List Batch → Except String TrainState
  | 0, s, _ => Except.ok s
  | _ + 1, s, [] => Except.ok s
  | fuel + 1, s, b :: rest =>
    if (budgetExhausted cfg s).isSome then Except.ok s
    else
      let s1 := step cfg b s
      let si : TrainState × List Batch :=
        if rest.isEmpty then ({ s1 with epoch := s1.epoch + 1 }, env.trainData)
        else (s1, rest)
      if 0 < si.1.updates ∧
          si.1.batches % (cfg.checkpointInterval * cfg.updateInterval) = 0 then
        match checkpointStep cfg vocabTargetSize env si.1 with
        | Except.error e => Except.error e
        | Except.ok s2 =>
          if secondsExhausted cfg s2 then Except.ok s2
          else if s2.converged || s2.diverged then Except.ok s2
          else fitLoop cfg vocabTargetSize env fuel s2 si.2
      else fitLoop cfg vocabTargetSize env fuel si.1 si.2

/-- The ledger counters named by the resume claim, read off a `fit` result
(`none` when the run died on the improvement assertion). -/
def ledgerCounters : Except String TrainState → Option (ℕ × ℕ × ℕ × ℕ × ℕ)
  | Except.error _ => none
  | Except.ok s => some (s.batches, s.updates, s.samples, s.epoch, s.bestCheckpoint)

/-- `_write_metrics_file`'s mutation of the ledger (training.py:556): append
one metric record.  In `fit` this happens after `_save_training_state`, so the
on-disk snapshot does not contain the record. -/
def appendMetricsRecord (rec : List (String × PyFloat)) (s : TrainState) : TrainState :=
  { s with metrics := s.metrics ++ [rec] }

/-- Overwrite the two ledger fields that are invisible to the training loop's
control flow: the `metrics` record list (only ever appended to, never read)
and the wall-clock anchor `ticLast` (read only by `update_time_elapsed`).
These are exactly the fields on which the reloaded snapshot and the
in-memory state of an uninterrupted run may differ. -/
def setUnobs (m : List (List (String × PyFloat))) (t : ℚ) (s : TrainState) : TrainState :=
  { s with metrics := m, ticLast := t }

/-- Two `fit` outcomes agree observably: both died with the same error, or
both returned ledgers that differ at most in `metrics` and `ticLast`. -/
def resultMatch : Except String TrainState → Except String TrainState → Prop
  | Except.error e1, Except.error e2 => e1 = e2
  | Except.ok a, Except.ok b => ∃ m t, a = setUnobs m t b
  | _, _ => False

/-- A sample environment used to instantiate theorems with hypotheses. -/
def sampleEnv : FitEnv :=
  { trainData := [⟨1, 1⟩]
    valMetrics := fun _ => []
    checkpointDelta := fun _ => 0 }

/-- The metric value `newValue` does not worsen on `old` under the metric's
improvement direction: it is unchanged or strictly better. -/
def noWorse (maximize : Bool) (newValue old : PyFloat) : Prop :=
  newValue = old ∨ valueIsBetter maximize newValue old = true

/-- A sample configuration used to instantiate theorems with hypotheses. -/
def sampleConfig : TrainerConfig :=
  { earlyStoppingMetric := "perplexity"
    checkpointInterval := 1
    maxNumCheckpointNotImproved := some 1
    checkpointImprovementThreshold := PyFloat.fin 0
    maxCheckpoints := none
    minSamples := none
    maxSamples := none
    minUpdates := none
    maxUpdates := none
    minEpochs := none
    maxEpochs := none
    maxSeconds := none
    updateInterval := 2
    maximizeMetric := false }

/-- A sample ledger state used to instantiate theorems with hypotheses. -/
def sampleState : TrainState :=
  { TrainState.init "perplexity" (PyFloat.fin 10) 0 with checkpoint := 3, bestCheckpoint := 1 }

/-- The state `_determine_improvement` produces from `sampleState` on a
non-improving perplexity of 12. -/
def sampleStateAfter : TrainState :=
  { sampleState with numNotImproved := 1, bestMetricHistory := [PyFloat.fin 10, PyFloat.fin 10] }

/-! ## Helper lemmas -/

theorem step_batches (cfg : TrainerConfig) (b : Batch) (s : TrainState) :
    (step cfg b s).batches = s.batches + 1 := by
  simp only [step]
  split <;> rfl

theorem step_samples (cfg : TrainerConfig) (b : Batch) (s : TrainState) :
    (step cfg b s).samples = s.samples + b.samples := by
  simp only [step]
  split <;> rfl

theorem step_updates (cfg : TrainerConfig) (b : Batch) (s : TrainState) :
    (step cfg b s).updates =
      if cfg.updateInterval = 1 || (s.batches + 1) % cfg.updateInterval = 0 then
        s.updates + 1
      else s.updates := by
  simp only [step]
  split <;> simp_all

theorem succ_div_of_update_interval (ui k : ℕ) (h : 1 ≤ ui) :
    (k + 1) / ui =
      k / ui + (if ui = 1 || (k + 1) % ui = 0 then 1 else 0) := by
  have hdvd : (ui = 1 || (k + 1) % ui = 0) = true ↔ ui ∣ (k + 1) := by
    simp only [Bool.or_eq_true, decide_eq_true_eq]
    constructor
    · rintro (rfl | h2)
      · exact Nat.one_dvd _
      · exact Nat.dvd_of_mod_eq_zero h2
    · intro hd
      exact Or.inr (Nat.dvd_iff_mod_eq_zero.mp hd)
  rw [Nat.succ_div]
  by_cases hc : ui ∣ (k + 1)
  · simp [hc, hdvd.mpr hc]
  · have : ¬ ((ui = 1 || (k + 1) % ui = 0) = true) := fun hh => hc (hdvd.mp hh)
    simp [hc, this]

theorem runSteps_counters (cfg : TrainerConfig) (h : 1 ≤ cfg.updateInterval) :
    ∀ (bs : List Batch) (s : TrainState),
      s.updates = s.batches / cfg.updateInterval →
      (runSteps cfg bs s).batches = s.batches + bs.length ∧
      (runSteps cfg bs s).samples = s.samples + (bs.map Batch.samples).sum ∧
      (runSteps cfg bs s).updates = (s.batches + bs.length) / cfg.updateInterval := by
  intro bs
  induction bs with
  | nil =>
    intro s hs
    simpa [runSteps] using hs
  | cons b bs ih =>
    intro s hs
    have hstep : (step cfg b s).updates = (step cfg b s).batches / cfg.updateInterval := by
      rw [step_updates, step_batches, hs,
        succ_div_of_update_interval cfg.updateInterval s.batches h]
      split <;> simp
    have hrec := ih (step cfg b s) hstep
    have hb := step_batches cfg b s
    have hsm := step_samples cfg b s
    have hrun : runSteps cfg (b :: bs) s = runSteps cfg bs (step cfg b s) := rfl
    refine ⟨?_, ?_, ?_⟩
    · rw [hrun, hrec.1, hb]
      simp [List.length_cons]
      omega
    · rw [hrun, hrec.2.1, hsm]
      simp [List.map_cons, List.sum_cons]
      omega
    · rw [hrun, hrec.2.2, hb]
      congr 1
      simp [List.length_cons]
      omega

theorem improvementScanFrom_untouched (cfg : TrainerConfig) :
    ∀ (ms : List LossMetric) (acc : Option PyFloat × Bool × TrainState),
      (improvementScanFrom cfg acc ms).2.2.checkpoint = acc.2.2.checkpoint ∧
      (improvementScanFrom cfg acc ms).2.2.bestMetricHistory = acc.2.2.bestMetricHistory := by
  intro ms
  induction ms with
  | nil => intro acc; exact ⟨rfl, rfl⟩
  | cons m rest ih =>
    intro acc
    simp only [improvementScanFrom]
    split
    · split
      · simpa using ih _
      · simpa using ih _
    · exact ih acc

theorem improvementScanFrom_bestCheckpoint (cfg : TrainerConfig) :
    ∀ (ms : List LossMetric) (acc : Option PyFloat × Bool × TrainState),
      (improvementScanFrom cfg acc ms).2.2.bestCheckpoint = acc.2.2.bestCheckpoint ∨
      (improvementScanFrom cfg acc ms).2.2.bestCheckpoint = acc.2.2.checkpoint := by
  intro ms
  induction ms with
  | nil => intro acc; exact Or.inl rfl
  | cons m rest ih =>
    intro acc
    simp only [improvementScanFrom]
    split
    · split
      · rcases ih (some m.value,
          valueIsBetter cfg.maximizeMetric m.value acc.2.2.bestMetric,
          { acc.2.2 with
              bestMetric := m.value
              bestCheckpoint := acc.2.2.checkpoint
              numNotImproved := 0 }) with h | h
        · exact Or.inr (by simpa using h)
        · exact Or.inr (by simpa using h)
      · simpa using ih _
    · exact ih acc

theorem pyLt_trans {a b c : PyFloat} (h1 : PyFloat.lt a b = true)
    (h2 : PyFloat.lt b c = true) : PyFloat.lt a c = true := by
  cases a <;> cases b <;> cases c <;> simp_all [PyFloat.lt]
  exact lt_trans h1 h2

theorem valueIsBetter_trans {maximize : Bool} {a b c : PyFloat}
    (h1 : valueIsBetter maximize a b = true) (h2 : valueIsBetter maximize b c = true) :
    valueIsBetter maximize a c = true := by
  cases maximize <;> simp only [valueIsBetter, if_true, if_false, Bool.false_eq_true] at *
  · exact pyLt_trans h1 h2
  · exact pyLt_trans h2 h1

theorem noWorse_trans {maximize : Bool} {a b c : PyFloat}
    (h1 : noWorse maximize a b) (h2 : noWorse maximize b c) : noWorse maximize a c := by
  rcases h1 with rfl | h1
  · exact h2
  · rcases h2 with rfl | h2
    · exact Or.inr h1
    · exact Or.inr (valueIsBetter_trans h1 h2)

theorem improvementScanFrom_noWorse (cfg : TrainerConfig) :
    ∀ (ms : List LossMetric) (acc : Option PyFloat × Bool × TrainState),
      noWorse cfg.maximizeMetric (improvementScanFrom cfg acc ms).2.2.bestMetric
        acc.2.2.bestMetric := by
  intro ms
  induction ms with
  | nil => intro acc; exact Or.inl rfl
  | cons m rest ih =>
    intro acc
    simp only [improvementScanFrom]
    split
    · rename_i hname
      split
      · rename_i hbetter
        refine noWorse_trans (by simpa using ih _) ?_
        exact Or.inr (by simpa using hbetter)
      · simpa using ih _
    · exact ih acc

theorem improvementScanFrom_no_match (cfg : TrainerConfig) :
    ∀ (ms : List LossMetric) (acc : Option PyFloat × Bool × TrainState),
      (∀ m ∈ ms, m.name ≠ cfg.earlyStoppingMetric) →
      improvementScanFrom cfg acc ms = acc := by
  intro ms
  induction ms with
  | nil => intro acc _; rfl
  | cons m rest ih =>
    intro acc h
    have hm : ¬ (m.name = cfg.earlyStoppingMetric) := h m (List.mem_cons_self m rest)
    simp only [improvementScanFrom, if_neg hm]
    exact ih acc (fun x hx => h x (List.mem_cons_of_mem m hx))

theorem improvementScanFrom_single_miss (cfg : TrainerConfig) :
    ∀ (ms : List LossMetric) (acc : Option PyFloat × Bool × TrainState),
      (ms.filter (fun m => m.name = cfg.earlyStoppingMetric)).length ≤ 1 →
      (improvementScanFrom cfg acc ms).2.1 = false →
      (improvementScanFrom cfg acc ms).2.2 = acc.2.2 := by
  intro ms
  induction ms with
  | nil => intro acc _ _; rfl
  | cons m rest ih =>
    intro acc hlen hfalse
    by_cases hm : m.name = cfg.earlyStoppingMetric
    · have hcons : (m :: rest).filter (fun x => x.name = cfg.earlyStoppingMetric) =
          m :: rest.filter (fun x => x.name = cfg.earlyStoppingMetric) := by
        simp [List.filter_cons, hm]
      rw [hcons] at hlen
      simp only [List.length_cons] at hlen
      have hrest : ∀ x ∈ rest, x.name ≠ cfg.earlyStoppingMetric := by
        intro x hx hxname
        have hmem : x ∈ rest.filter (fun x => x.name = cfg.earlyStoppingMetric) :=
          List.mem_filter.mpr ⟨hx, by simpa using hxname⟩
        have := List.length_pos.mpr (List.ne_nil_of_mem hmem)
        omega
      simp only [improvementScanFrom, if_pos hm] at hfalse ⊢
      by_cases hbetter : valueIsBetter cfg.maximizeMetric m.value acc.2.2.bestMetric = true
      · rw [if_pos hbetter] at hfalse ⊢
        rw [improvementScanFrom_no_match cfg rest _ hrest] at hfalse
        simp at hfalse
        exact absurd hbetter (by simp [hfalse])
      · rw [if_neg hbetter] at hfalse ⊢
        rw [improvementScanFrom_no_match cfg rest _ hrest]
    · have hlen' : (rest.filter (fun x => x.name = cfg.earlyStoppingMetric)).length ≤ 1 := by
        have hcons : (m :: rest).filter (fun x => x.name = cfg.earlyStoppingMetric) =
            rest.filter (fun x => x.name = cfg.earlyStoppingMetric) := by
          simp [List.filter_cons, hm]
        rw [hcons] at hlen
        exact hlen
      simp only [improvementScanFrom, if_neg hm] at hfalse ⊢
      exact ih acc hlen' hfalse

theorem historyUpdate_untouched (cfg : TrainerConfig) (s : TrainState) :
    (historyUpdate cfg s).bestMetric = s.bestMetric ∧
    (historyUpdate cfg s).bestCheckpoint = s.bestCheckpoint ∧
    (historyUpdate cfg s).checkpoint = s.checkpoint := by
  unfold historyUpdate
  cases cfg.maxNumCheckpointNotImproved with
  | none => exact ⟨rfl, rfl, rfl⟩
  | some patience =>
    simp only
    split
    · exact ⟨rfl, rfl, rfl⟩
    · exact ⟨rfl, rfl, rfl⟩

theorem historyUpdate_history (cfg : TrainerConfig) (patience : ℤ)
    (hcfg : cfg.maxNumCheckpointNotImproved = some patience) (s : TrainState) :
    (historyUpdate cfg s).bestMetricHistory =
      if ((s.bestMetricHistory.length : ℤ) + 1 > patience + 1) then
        (s.bestMetricHistory ++ [s.bestMetric]).tail
      else s.bestMetricHistory ++ [s.bestMetric] := by
  unfold historyUpdate
  rw [hcfg]
  simp only [List.length_append, List.length_singleton]
  split <;> split <;> first | rfl | omega

theorem improvementScan_untouched (cfg : TrainerConfig) (ms : List LossMetric)
    (s : TrainState) :
    (improvementScan cfg s ms).2.2.checkpoint = s.checkpoint ∧
    (improvementScan cfg s ms).2.2.bestMetricHistory = s.bestMetricHistory :=
  improvementScanFrom_untouched cfg ms (none, false, s)

theorem improvementScan_noWorse (cfg : TrainerConfig) (ms : List LossMetric)
    (s : TrainState) :
    noWorse cfg.maximizeMetric (improvementScan cfg s ms).2.2.bestMetric s.bestMetric :=
  improvementScanFrom_noWorse cfg ms (none, false, s)

theorem improvementScan_bestCheckpoint (cfg : TrainerConfig) (ms : List LossMetric)
    (s : TrainState) :
    (improvementScan cfg s ms).2.2.bestCheckpoint = s.bestCheckpoint ∨
    (improvementScan cfg s ms).2.2.bestCheckpoint = s.checkpoint :=
  improvementScanFrom_bestCheckpoint cfg ms (none, false, s)

theorem determineImprovement_ok_elim (cfg : TrainerConfig) (ms : List LossMetric)
    (s : TrainState) (b : Bool) (s' : TrainState)
    (h : determineImprovement cfg ms s = Except.ok (b, s')) :
    ∃ v0 s1, improvementScan cfg s ms = (some v0, b, s1) ∧
      s' = historyUpdate cfg
        (if b = true then s1 else { s1 with numNotImproved := s1.numNotImproved + 1 }) := by
  unfold determineImprovement at h
  rcases hscan : improvementScan cfg s ms with ⟨v, vib, s1⟩
  rw [hscan] at h
  cases v with
  | none => simp at h
  | some v0 =>
    simp only [Except.ok.injEq, Prod.mk.injEq] at h
    obtain ⟨hb, hs⟩ := h
    subst hb
    exact ⟨v0, s1, rfl, hs.symm⟩

@[simp] theorem setUnobs_numNotImproved (m : List (List (String × PyFloat))) (t : ℚ)
    (s : TrainState) : (setUnobs m t s).numNotImproved = s.numNotImproved := rfl

@[simp] theorem setUnobs_epoch (m : List (List (String × PyFloat))) (t : ℚ)
    (s : TrainState) : (setUnobs m t s).epoch = s.epoch := rfl

@[simp] theorem setUnobs_checkpoint (m : List (List (String × PyFloat))) (t : ℚ)
    (s : TrainState) : (setUnobs m t s).checkpoint = s.checkpoint := rfl

@[simp] theorem setUnobs_bestCheckpoint (m : List (List (String × PyFloat))) (t : ℚ)
    (s : TrainState) : (setUnobs m t s).bestCheckpoint = s.bestCheckpoint := rfl

@[simp] theorem setUnobs_batches (m : List (List (String × PyFloat))) (t : ℚ)
    (s : TrainState) : (setUnobs m t s).batches = s.batches := rfl

@[simp] theorem setUnobs_updates (m : List (List (String × PyFloat))) (t : ℚ)
    (s : TrainState) : (setUnobs m t s).updates = s.updates := rfl

@[simp] theorem setUnobs_samples (m : List (List (String × PyFloat))) (t : ℚ)
    (s : TrainState) : (setUnobs m t s).samples = s.samples := rfl

@[simp] theorem setUnobs_timeElapsed (m : List (List (String × PyFloat))) (t : ℚ)
    (s : TrainState) : (setUnobs m t s).timeElapsed = s.timeElapsed := rfl

@[simp] theorem setUnobs_bestMetric (m : List (List (String × PyFloat))) (t : ℚ)
    (s : TrainState) : (setUnobs m t s).bestMetric = s.bestMetric := rfl

@[simp] theorem setUnobs_bestMetricHistory (m : List (List (String × PyFloat))) (t : ℚ)
    (s : TrainState) : (setUnobs m t s).bestMetricHistory = s.bestMetricHistory := rfl

@[simp] theorem setUnobs_converged (m : List (List (String × PyFloat))) (t : ℚ)
    (s : TrainState) : (setUnobs m t s).converged = s.converged := rfl

@[simp] theorem setUnobs_diverged (m : List (List (String × PyFloat))) (t : ℚ)
    (s : TrainState) : (setUnobs m t s).diverged = s.diverged := rfl

@[simp] theorem setUnobs_gradientNorm (m : List (List (String × PyFloat))) (t : ℚ)
    (s : TrainState) : (setUnobs m t s).gradientNorm = s.gradientNorm := rfl

@[simp] theorem setUnobs_startTic (m : List (List (String × PyFloat))) (t : ℚ)
    (s : TrainState) : (setUnobs m t s).startTic = s.startTic := rfl

@[simp] theorem setUnobs_earlyStoppingMetric (m : List (List (String × PyFloat))) (t : ℚ)
    (s : TrainState) : (setUnobs m t s).earlyStoppingMetric = s.earlyStoppingMetric := rfl

@[simp] theorem setUnobs_metrics (m : List (List (String × PyFloat))) (t : ℚ)
    (s : TrainState) : (setUnobs m t s).metrics = m := rfl

@[simp] theorem setUnobs_ticLast (m : List (List (String × PyFloat))) (t : ℚ)
    (s : TrainState) : (setUnobs m t s).ticLast = t := rfl

theorem budgetExhausted_setUnobs (cfg : TrainerConfig) (m : List (List (String × PyFloat)))
    (t : ℚ) (s : TrainState) :
    budgetExhausted cfg (setUnobs m t s) = budgetExhausted cfg s := rfl

theorem secondsExhausted_setUnobs (cfg : TrainerConfig) (m : List (List (String × PyFloat)))
    (t : ℚ) (s : TrainState) :
    secondsExhausted cfg (setUnobs m t s) = secondsExhausted cfg s := rfl

theorem determineConvergence_setUnobs (cfg : TrainerConfig)
    (m : List (List (String × PyFloat))) (t : ℚ) (s : TrainState) :
    determineConvergence cfg (setUnobs m t s) = determineConvergence cfg s := rfl

theorem step_setUnobs (cfg : TrainerConfig) (b : Batch)
    (m : List (List (String × PyFloat))) (t : ℚ) (s : TrainState) :
    step cfg b (setUnobs m t s) = setUnobs m t (step cfg b s) := by
  simp only [step, setUnobs]
  split <;> rfl

theorem improvementScanFrom_setUnobs (cfg : TrainerConfig) :
    ∀ (ms : List LossMetric) (v : Option PyFloat) (b : Bool) (s : TrainState)
      (m : List (List (String × PyFloat))) (t : ℚ),
      improvementScanFrom cfg (v, b, setUnobs m t s) ms =
        ((improvementScanFrom cfg (v, b, s) ms).1,
          (improvementScanFrom cfg (v, b, s) ms).2.1,
          setUnobs m t (improvementScanFrom cfg (v, b, s) ms).2.2) := by
  intro ms
  induction ms with
  | nil => intro v b s m t; rfl
  | cons x rest ih =>
    intro v b s m t
    simp only [improvementScanFrom, setUnobs_bestMetric, setUnobs_checkpoint]
    split
    · split
      · exact ih (some x.value) _
          { s with
              bestMetric := x.value
              bestCheckpoint := s.checkpoint
              numNotImproved := 0 } m t
      · exact ih (some x.value) _ s m t
    · exact ih v b s m t

theorem historyUpdate_setUnobs (cfg : TrainerConfig)
    (m : List (List (String × PyFloat))) (t : ℚ) (s : TrainState) :
    historyUpdate cfg (setUnobs m t s) = setUnobs m t (historyUpdate cfg s) := by
  simp only [historyUpdate, setUnobs_bestMetricHistory, setUnobs_bestMetric]
  cases cfg.maxNumCheckpointNotImproved with
  | none => rfl
  | some patience =>
    simp only
    split <;> rfl

theorem determineImprovement_setUnobs (cfg : TrainerConfig) (ms : List LossMetric)
    (m : List (List (String × PyFloat))) (t : ℚ) (s : TrainState) :
    determineImprovement cfg ms (setUnobs m t s) =
      match determineImprovement cfg ms s with
      | Except.error e => Except.error e
      | Except.ok (b, s') => Except.ok (b, setUnobs m t s') := by
  unfold determineImprovement improvementScan
  rw [improvementScanFrom_setUnobs cfg ms none false s m t]
  rcases hscan : improvementScanFrom cfg (none, false, s) ms with ⟨v, vib, s1⟩
  cases v with
  | none => rfl
  | some v0 =>
    simp only
    cases vib with
    | true =>
      simp only [eq_self_iff_true, if_true]
      rw [historyUpdate_setUnobs]
    | false =>
      have hnum : ({ setUnobs m t s1 with
          numNotImproved := (setUnobs m t s1).numNotImproved + 1 }) =
          setUnobs m t { s1 with numNotImproved := s1.numNotImproved + 1 } := rfl
      simp only [Bool.false_eq_true, if_false]
      rw [hnum, historyUpdate_setUnobs]

theorem checkpointStep_setUnobs (cfg : TrainerConfig) (vocabTargetSize : ℕ) (env : FitEnv)
    (m : List (List (String × PyFloat))) (t : ℚ) (s : TrainState) :
    checkpointStep cfg vocabTargetSize env (setUnobs m t s) =
      match checkpointStep cfg vocabTargetSize env s with
      | Except.error e => Except.error e
      | Except.ok s' => Except.ok (setUnobs
          (m ++ [(env.valMetrics (s.checkpoint + 1)).map (fun x => (x.name, x.value))])
          t s') := by
  unfold checkpointStep
  have hbump : ({ setUnobs m t s with checkpoint := (setUnobs m t s).checkpoint + 1 }) =
      setUnobs m t { s with checkpoint := s.checkpoint + 1 } := rfl
  rw [hbump]
  simp only [setUnobs_checkpoint]
  rw [determineImprovement_setUnobs]
  rcases hd : determineImprovement cfg (env.valMetrics (s.checkpoint + 1))
      { s with checkpoint := s.checkpoint + 1 } with e | bs1
  · simp only [hd]
  · rcases bs1 with ⟨b, s1⟩
    simp only [hd]
    rfl

theorem fitLoop_setUnobs (cfg : TrainerConfig) (vocabTargetSize : ℕ) (env : FitEnv) :
    ∀ (fuel : ℕ) (m : List (List (String × PyFloat))) (t : ℚ) (s : TrainState)
      (iter : List Batch),
      resultMatch (fitLoop cfg vocabTargetSize env fuel (setUnobs m t s) iter)
        (fitLoop cfg vocabTargetSize env fuel s iter) := by
  intro fuel
  induction fuel with
  | zero => intro m t s iter; exact ⟨m, t, rfl⟩
  | succ n ih =>
    intro m t s iter
    have htail : ∀ (s' : TrainState) (iter' : List Batch),
        resultMatch
          (if 0 < (setUnobs m t s').updates ∧
              (setUnobs m t s').batches % (cfg.checkpointInterval * cfg.updateInterval) = 0 then
            match checkpointStep cfg vocabTargetSize env (setUnobs m t s') with
            | Except.error e => Except.error e
            | Except.ok s2 =>
              if secondsExhausted cfg s2 then Except.ok s2
              else if s2.converged || s2.diverged then Except.ok s2
              else fitLoop cfg vocabTargetSize env n s2 iter'
          else fitLoop cfg vocabTargetSize env n (setUnobs m t s') iter')
          (if 0 < s'.updates ∧
              s'.batches % (cfg.checkpointInterval * cfg.updateInterval) = 0 then
            match checkpointStep cfg vocabTargetSize env s' with
            | Except.error e => Except.error e
            | Except.ok s2 =>
              if secondsExhausted cfg s2 then Except.ok s2
              else if s2.converged || s2.diverged then Except.ok s2
              else fitLoop cfg vocabTargetSize env n s2 iter'
          else fitLoop cfg vocabTargetSize env n s' iter') := by
      intro s' iter'
      simp only [setUnobs_updates, setUnobs_batches]
      by_cases hc : 0 < s'.updates ∧
          s'.batches % (cfg.checkpointInterval * cfg.updateInterval) = 0
      · rw [if_pos hc, if_pos hc, checkpointStep_setUnobs]
        rcases hcp : checkpointStep cfg vocabTargetSize env s' with e | s2
        · simp only [hcp]
          rfl
        · simp only [hcp]
          rw [secondsExhausted_setUnobs]
          by_cases hsec : secondsExhausted cfg s2 = true
          · simp only [hsec, if_true]
            exact ⟨_, _, rfl⟩
          · simp only [Bool.not_eq_true] at hsec
            simp only [hsec, Bool.false_eq_true, if_false, setUnobs_converged,
              setUnobs_diverged]
            by_cases hcd : (s2.converged || s2.diverged) = true
            · simp only [hcd, if_true]
              exact ⟨_, _, rfl⟩
            · simp only [Bool.not_eq_true] at hcd
              simp only [hcd, Bool.false_eq_true, if_false]
              exact ih _ t s2 iter'
      · rw [if_neg hc, if_neg hc]
        exact ih m t s' iter'
    cases iter with
    | nil => exact ⟨m, t, rfl⟩
    | cons b rest =>
      simp only [fitLoop]
      rw [budgetExhausted_setUnobs]
      by_cases hb : (budgetExhausted cfg s).isSome = true
      · simp only [hb, if_true]
        exact ⟨m, t, rfl⟩
      · simp only [Bool.not_eq_true] at hb
        simp only [hb, Bool.false_eq_true, if_false]
        rw [step_setUnobs]
        by_cases hrest : rest.isEmpty = true
        · simp only [hrest, if_true]
          have hbump : ({ setUnobs m t (step cfg b s) with
              epoch := (setUnobs m t (step cfg b s)).epoch + 1 }) =
              setUnobs m t { step cfg b s with epoch := (step cfg b s).epoch + 1 } := rfl
          rw [hbump]
          exact htail { step cfg b s with epoch := (step cfg b s).epoch + 1 } env.trainData
        · simp only [Bool.not_eq_true] at hrest
          simp only [hrest, Bool.false_eq_true, if_false]
          exact htail (step cfg b s) rest

theorem resultMatch_counters {x y : Except String TrainState} (h : resultMatch x y) :
    ledgerCounters x = ledgerCounters y := by
  cases x with
  | error e1 =>
    cases y with
    | error e2 => rfl
    | ok b => exact absurd h (by simp [resultMatch])
  | ok a =>
    cases y with
    | error e2 => exact absurd h (by simp [resultMatch])
    | ok b =>
      obtain ⟨m, t, rfl⟩ := h
      rfl

/-! ## Claim theorems -/

/-- C2: For every sequence of `N` calls to `_step` with
`update_interval ≥ 1` starting from a fresh ledger, the `batches` counter
equals `N`, the `samples` counter equals the sum of `batch.samples` over the
`N` batches, and the `updates` counter equals `⌊N / update_interval⌋`; in
particular with `update_interval = 1` every batch produces exactly one
optimizer update. -/
theorem step_counter_totals (cfg : TrainerConfig) (h : 1 ≤ cfg.updateInterval)
    (bs : List Batch) (metric : String) (worst : PyFloat) (now : ℚ) :
    (runSteps cfg bs (TrainState.init metric worst now)).batches = bs.length ∧
    (runSteps cfg bs (TrainState.init metric worst now)).samples =
      (bs.map Batch.samples).sum ∧
    (runSteps cfg bs (TrainState.init metric worst now)).updates =
      bs.length / cfg.updateInterval ∧
    (cfg.updateInterval = 1 →
      (runSteps cfg bs (TrainState.init metric worst now)).updates = bs.length) := by
  have hmain := runSteps_counters cfg h bs (TrainState.init metric worst now)
    (by simp [TrainState.init])
  refine ⟨by simpa [TrainState.init] using hmain.1,
          by simpa [TrainState.init] using hmain.2.1,
          by simpa [TrainState.init] using hmain.2.2, ?_⟩
  intro h1
  have := hmain.2.2
  simp [TrainState.init, h1] at this
  simpa [TrainState.init, h1]

theorem step_counter_totals_witness :
    (runSteps sampleConfig [⟨2, 2⟩, ⟨3, 3⟩, ⟨4, 4⟩]
        (TrainState.init "perplexity" PyFloat.inf 0)).batches = 3 ∧
    (runSteps sampleConfig [⟨2, 2⟩, ⟨3, 3⟩, ⟨4, 4⟩]
        (TrainState.init "perplexity" PyFloat.inf 0)).samples = 9 ∧
    (runSteps sampleConfig [⟨2, 2⟩, ⟨3, 3⟩, ⟨4, 4⟩]
        (TrainState.init "perplexity" PyFloat.inf 0)).updates = 1 := by
  have h := step_counter_totals sampleConfig (by decide)
    [⟨2, 2⟩, ⟨3, 3⟩, ⟨4, 4⟩] "perplexity" PyFloat.inf 0
  exact ⟨h.1, by rw [h.2.1]; rfl, by rw [h.2.2.1]; decide⟩

/-- C5: For every validation metric set whose (first) perplexity metric
has value `p`, `_determine_divergence` returns True exactly when `p` is
non-finite or `p` exceeds twice the target vocabulary size, and False for
every finite `p` at or below that bound. -/
theorem divergence_spec (v : ℕ) (ms : List LossMetric) (m : LossMetric)
    (h : ms.find? (fun x => x.name = PERPLEXITY) = some m) :
    (determineDivergence v ms = true ↔
      (m.value.isfinite = false ∨
        PyFloat.lt (PyFloat.fin (2 * (v : ℚ))) m.value = true)) ∧
    (∀ q : ℚ, m.value = PyFloat.fin q → q ≤ 2 * (v : ℚ) →
      determineDivergence v ms = false) := by
  constructor
  · simp [determineDivergence, h, Bool.or_eq_true, Bool.not_eq_true']
  · intro q hq hle
    simp [determineDivergence, h, hq, PyFloat.isfinite, PyFloat.lt, not_lt.mpr hle]

theorem divergence_spec_witness :
    determineDivergence 5 [⟨"perplexity", PyFloat.fin 20⟩] = true ∧
    determineDivergence 5 [⟨"perplexity", PyFloat.fin 10⟩] = false := by
  constructor
  · exact (divergence_spec 5 [⟨"perplexity", PyFloat.fin 20⟩]
      ⟨"perplexity", PyFloat.fin 20⟩ (by rfl)).1.mpr (Or.inr (by norm_num [PyFloat.lt]))
  · exact (divergence_spec 5 [⟨"perplexity", PyFloat.fin 10⟩]
      ⟨"perplexity", PyFloat.fin 10⟩ (by rfl)).2 10 rfl (by norm_num)

/-- C10: For every call to `_determine_divergence` with a validation
metric list containing no metric named perplexity, the function returns True:
`last_ppl` keeps its NaN default, which is non-finite, so such a run is
stopped as diverged at its first checkpoint. -/
theorem divergence_without_perplexity (v : ℕ) (ms : List LossMetric)
    (h : ∀ m ∈ ms, m.name ≠ PERPLEXITY) :
    determineDivergence v ms = true := by
  have hfind : ms.find? (fun x => x.name = PERPLEXITY) = none := by
    rw [List.find?_eq_none]
    intro m hm
    simpa using h m hm
  simp [determineDivergence, hfind, PyFloat.isfinite]

theorem divergence_without_perplexity_witness :
    determineDivergence 5 [⟨"bleu", PyFloat.fin 1⟩] = true :=
  divergence_without_perplexity 5 [⟨"bleu", PyFloat.fin 1⟩] (by decide)

/-- C3: The claim says a decoder metric whose name collides with an
existing validation metric makes `_evaluate` fail fast.  The code's guard
(training.py:396) is `assert metric_name not in val_metrics`, which tests a
`str` for membership in a list of `LossMetric` *objects*; no string ever
equals a `LossMetric`, so the assertion never fires and the colliding metric
is silently appended: at the failing input below (a validation set already
holding a metric named "bleu" and a decoder returning another "bleu") the
merge succeeds and the result carries two metrics named "bleu".  The second
conjunct shows the guard is vacuous on every input. -/
theorem evaluate_duplicate_metric_appended :
    mergeDecoderMetrics [⟨"bleu", PyFloat.fin 1⟩] [("bleu", PyFloat.fin 2)] =
      Except.ok [⟨"bleu", PyFloat.fin 1⟩, ⟨"bleu", PyFloat.fin 2⟩] ∧
    ∀ (dms : List (String × PyFloat)) (vms : List LossMetric),
      mergeDecoderMetrics vms dms =
        Except.ok (vms ++ dms.map (fun nv => { name := nv.1, value := nv.2 })) := by
  have hgen : ∀ (dms : List (String × PyFloat)) (vms : List LossMetric),
      mergeDecoderMetrics vms dms =
        Except.ok (vms ++ dms.map (fun nv => { name := nv.1, value := nv.2 })) := by
    intro dms
    induction dms with
    | nil => intro vms; simp [mergeDecoderMetrics]
    | cons d ds ih =>
      intro vms
      have hcons : mergeDecoderMetrics vms (d :: ds) =
          mergeDecoderMetrics (vms ++ [{ name := d.1, value := d.2 }]) ds := by
        simp [mergeDecoderMetrics, strEqLossMetric]
      rw [hcons, ih]
      simp
  exact ⟨by rw [hgen]; rfl, fun dms vms => hgen dms vms⟩

/-- C4: `_determine_convergence` returns False whenever any configured
minimum (`min_samples`, `min_updates`, `min_epochs`) is unmet; once all
minimums are satisfied, a patience window is configured (non-None, ≥ 0) and at
least that many checkpoints have elapsed, it returns True exactly when the
absolute difference between the current best metric and the best metric at
the window start is ≤ the configured improvement threshold. -/
theorem convergence_spec (cfg : TrainerConfig) (s : TrainState) :
    ((minUnmet cfg.minSamples s.samples || minUnmet cfg.minUpdates s.updates ||
        minUnmet cfg.minEpochs s.epoch) = true →
      determineConvergence cfg s = false) ∧
    (minUnmet cfg.minSamples s.samples = false →
      minUnmet cfg.minUpdates s.updates = false →
      minUnmet cfg.minEpochs s.epoch = false →
      ∀ patience : ℤ, cfg.maxNumCheckpointNotImproved = some patience →
        0 ≤ patience → patience ≤ (s.checkpoint : ℤ) →
        ∀ w, s.bestMetricHistory.head? = some w →
          (determineConvergence cfg s = true ↔
            PyFloat.le ((s.bestMetric.sub w).pabs)
              cfg.checkpointImprovementThreshold = true)) := by
  constructor
  · intro hmin
    rcases Bool.or_eq_true_iff.mp hmin with hmin | h3
    · rcases Bool.or_eq_true_iff.mp hmin with h1 | h2
      · simp [determineConvergence, h1]
      · simp [determineConvergence, h2]
    · simp [determineConvergence, h3]
  · intro h1 h2 h3 patience hp hge hcp w hw
    simp [determineConvergence, h1, h2, h3, hp, hge, hcp, hw]

theorem convergence_spec_witness :
    determineConvergence
      { sampleConfig with minSamples := some 10 }
      { TrainState.init "perplexity" (PyFloat.fin 10) 0 with samples := 5 } = false ∧
    determineConvergence sampleConfig
      { TrainState.init "perplexity" (PyFloat.fin 10) 0 with checkpoint := 2 } = true := by
  constructor
  · exact (convergence_spec _ _).1 (by decide)
  · exact ((convergence_spec sampleConfig
      { TrainState.init "perplexity" (PyFloat.fin 10) 0 with checkpoint := 2 }).2
      rfl rfl rfl 1 rfl (by decide) (by decide) (PyFloat.fin 10) rfl).mpr
      (by norm_num [TrainState.init, PyFloat.sub, PyFloat.pabs, PyFloat.le, PyFloat.lt,
        sampleConfig])

/-- C6: Every successful `_determine_improvement` call appends exactly one
entry (the possibly unchanged best value) to `best_metric_history` and evicts
the oldest entry once the window exceeds `patience + 1`; consequently, over
every run from a fresh ledger, the history length never exceeds
`max_num_checkpoint_not_improved + 1` when a patience window is configured. -/
theorem history_window_bounded (cfg : TrainerConfig) (patience : ℤ)
    (hcfg : cfg.maxNumCheckpointNotImproved = some patience) (hp : 0 ≤ patience) :
    (∀ (ms : List LossMetric) (s : TrainState) (b : Bool) (s' : TrainState),
      determineImprovement cfg ms s = Except.ok (b, s') →
      s'.bestMetricHistory =
        if ((s.bestMetricHistory.length : ℤ) + 1 > patience + 1) then
          (s.bestMetricHistory ++ [s'.bestMetric]).tail
        else s.bestMetricHistory ++ [s'.bestMetric]) ∧
    (∀ (css : List (List LossMetric)) (metric : String) (worst : PyFloat) (now : ℚ),
      ((runImprovements cfg css
          (TrainState.init metric worst now)).bestMetricHistory.length : ℤ)
        ≤ patience + 1) := by
  have hchar : ∀ (ms : List LossMetric) (s : TrainState) (b : Bool) (s' : TrainState),
      determineImprovement cfg ms s = Except.ok (b, s') →
      s'.bestMetricHistory =
        if ((s.bestMetricHistory.length : ℤ) + 1 > patience + 1) then
          (s.bestMetricHistory ++ [s'.bestMetric]).tail
        else s.bestMetricHistory ++ [s'.bestMetric] := by
    intro ms s b s' h
    obtain ⟨v0, s1, hscan, hs'⟩ := determineImprovement_ok_elim cfg ms s b s' h
    have hhist1 : s1.bestMetricHistory = s.bestMetricHistory := by
      have h1 := (improvementScan_untouched cfg ms s).2
      rw [hscan] at h1
      exact h1
    set s2 := if b = true then s1 else { s1 with numNotImproved := s1.numNotImproved + 1 }
      with hs2
    have hhist2 : s2.bestMetricHistory = s.bestMetricHistory := by
      rw [hs2]; split <;> simpa using hhist1
    have hbest2 : s2.bestMetric = s1.bestMetric := by
      rw [hs2]; split <;> rfl
    have hbest' : s'.bestMetric = s2.bestMetric := by
      rw [hs']; exact (historyUpdate_untouched cfg s2).1
    rw [hs', historyUpdate_history cfg patience hcfg s2, hhist2,
      (historyUpdate_untouched cfg s2).1]
  refine ⟨hchar, ?_⟩
  have hrun : ∀ (css : List (List LossMetric)) (t : TrainState),
      ((t.bestMetricHistory.length : ℤ) ≤ patience + 1) →
      (((runImprovements cfg css t).bestMetricHistory.length : ℤ) ≤ patience + 1) := by
    intro css
    induction css with
    | nil => intro t ht; exact ht
    | cons ms css ih =>
      intro t ht
      have hfold : runImprovements cfg (ms :: css) t =
          runImprovements cfg css
            (match determineImprovement cfg ms t with
              | Except.ok (_, s') => s'
              | Except.error _ => t) := rfl
      rw [hfold]
      rcases hd : determineImprovement cfg ms t with e | bs'
      · simp only [hd]
        exact ih t ht
      · rcases bs' with ⟨b, t'⟩
        simp only [hd]
        apply ih
        rw [hchar ms t b t' hd]
        split
        · have htail : (t.bestMetricHistory ++ [t'.bestMetric]).tail.length =
              t.bestMetricHistory.length := by
            simp [List.length_tail]
          rw [htail]
          exact ht
        · rename_i hc
          simp only [List.length_append, List.length_singleton]
          push_cast
          omega
  intro css metric worst now
  have hinit : (((TrainState.init metric worst now).bestMetricHistory.length : ℤ))
      ≤ patience + 1 := by
    simp [TrainState.init]
    omega
  exact hrun css _ hinit

theorem history_window_bounded_witness :
    ((runImprovements sampleConfig
        [[⟨"perplexity", PyFloat.fin 12⟩], [⟨"perplexity", PyFloat.fin 9⟩],
         [⟨"perplexity", PyFloat.fin 9⟩]]
        (TrainState.init "perplexity" (PyFloat.fin 10) 0)).bestMetricHistory.length : ℤ)
      ≤ 1 + 1 :=
  (history_window_bounded sampleConfig 1 rfl (by decide)).2 _ "perplexity" (PyFloat.fin 10) 0

/-- C7: Over every `_determine_improvement` call, `best_metric` is
monotonically non-worsening under the metric's improvement direction, the
`best_checkpoint ≤ checkpoint` invariant is preserved (the call never changes
`checkpoint`), and a call whose (unique) early-stopping metric value does not
improve leaves both `best_metric` and `best_checkpoint` unchanged. -/
theorem improvement_monotonic (cfg : TrainerConfig) (ms : List LossMetric)
    (s : TrainState) (b : Bool) (s' : TrainState)
    (h : determineImprovement cfg ms s = Except.ok (b, s')) :
    noWorse cfg.maximizeMetric s'.bestMetric s.bestMetric ∧
    s'.checkpoint = s.checkpoint ∧
    (s.bestCheckpoint ≤ s.checkpoint → s'.bestCheckpoint ≤ s'.checkpoint) ∧
    (b = false →
      (ms.filter (fun m => m.name = cfg.earlyStoppingMetric)).length ≤ 1 →
      s'.bestMetric = s.bestMetric ∧ s'.bestCheckpoint = s.bestCheckpoint) := by
  obtain ⟨v0, s1, hscan, hs'⟩ := determineImprovement_ok_elim cfg ms s b s' h
  set s2 := if b = true then s1 else { s1 with numNotImproved := s1.numNotImproved + 1 }
    with hs2
  have hbest2 : s2.bestMetric = s1.bestMetric := by rw [hs2]; split <;> rfl
  have hbc2 : s2.bestCheckpoint = s1.bestCheckpoint := by rw [hs2]; split <;> rfl
  have hcp2 : s2.checkpoint = s1.checkpoint := by rw [hs2]; split <;> rfl
  have hbest' : s'.bestMetric = s1.bestMetric := by
    rw [hs', (historyUpdate_untouched cfg s2).1, hbest2]
  have hbc' : s'.bestCheckpoint = s1.bestCheckpoint := by
    rw [hs', (historyUpdate_untouched cfg s2).2.1, hbc2]
  have hcp' : s'.checkpoint = s1.checkpoint := by
    rw [hs', (historyUpdate_untouched cfg s2).2.2, hcp2]
  have hcp1 : s1.checkpoint = s.checkpoint := by
    have h1 := (improvementScan_untouched cfg ms s).1
    rw [hscan] at h1
    exact h1
  refine ⟨?_, ?_, ?_, ?_⟩
  · have h1 := improvementScan_noWorse cfg ms s
    rw [hscan] at h1
    rw [hbest']
    exact h1
  · rw [hcp', hcp1]
  · intro hle
    have h1 := improvementScan_bestCheckpoint cfg ms s
    rw [hscan] at h1
    rcases h1 with h1 | h1
    · rw [hbc', h1, hcp', hcp1]
      exact hle
    · rw [hbc', h1, hcp', hcp1]
  · intro hb hsingle
    subst hb
    have hres : (improvementScan cfg s ms).2.1 = false := by rw [hscan]
    have hstate := improvementScanFrom_single_miss cfg ms (none, false, s) hsingle hres
    have hs1 : s1 = s := by
      have hstate2 : (improvementScan cfg s ms).2.2 = s := hstate
      rw [hscan] at hstate2
      exact hstate2
    rw [hbest', hbc', hs1]
    exact ⟨rfl, rfl⟩

theorem improvement_monotonic_witness :
    sampleStateAfter.bestMetric = sampleState.bestMetric ∧
    sampleStateAfter.bestCheckpoint = sampleState.bestCheckpoint :=
  (improvement_monotonic sampleConfig [⟨"perplexity", PyFloat.fin 12⟩] sampleState false
    sampleStateAfter (by rfl)).2.2.2 rfl (by decide)

/-- C8: A `_determine_improvement` call with a validation metric set in
which no metric bears the configured early-stopping metric name fails with
the fatal assertion at training.py:444 (modelled as an error result) rather
than returning a result. -/
theorem improvement_metric_missing (cfg : TrainerConfig) (valMetrics : List LossMetric)
    (s : TrainState) (h : ∀ m ∈ valMetrics, m.name ≠ cfg.earlyStoppingMetric) :
    determineImprovement cfg valMetrics s =
      Except.error "Early stopping metric not found in validation metrics." := by
  unfold determineImprovement improvementScan
  rw [improvementScanFrom_no_match cfg valMetrics _ h]

theorem improvement_metric_missing_witness :
    determineImprovement sampleConfig [⟨"bleu", PyFloat.fin 1⟩] sampleState =
      Except.error "Early stopping metric not found in validation metrics." :=
  improvement_metric_missing sampleConfig [⟨"bleu", PyFloat.fin 1⟩] sampleState (by decide)

/-- C9: In `fit`'s main loop the stop conditions are checked before each
batch is pulled, in order: epoch count reached `max_epochs`, update count
reached `max_updates`, sample count reached or exceeded `max_samples`;
whichever first holds determines the stop reason, the loop ends as normal
budget exhaustion (`fit` returns the ledger unchanged, not an error), and no
further batch is processed (the returned ledger is the entry state, so its
`batches` counter is unchanged). -/
theorem fit_budget_exhaustion (cfg : TrainerConfig) (vocabTargetSize : ℕ) (env : FitEnv)
    (fuel : ℕ) (s : TrainState) (iter : List Batch) (r : StopReason)
    (h : budgetExhausted cfg s = some r) :
    fitLoop cfg vocabTargetSize env fuel s iter = Except.ok s ∧
    (epochsExhausted cfg s = true → r = StopReason.maxEpochs) ∧
    (epochsExhausted cfg s = false → updatesExhausted cfg s = true →
      r = StopReason.maxUpdates) ∧
    (epochsExhausted cfg s = false → updatesExhausted cfg s = false →
      r = StopReason.maxSamples ∧ samplesExhausted cfg s = true) := by
  refine ⟨?_, ?_, ?_, ?_⟩
  · cases fuel with
    | zero => rfl
    | succ n =>
      cases iter with
      | nil => rfl
      | cons b rest => simp [fitLoop, h]
  · intro he
    simp only [budgetExhausted, he, if_true] at h
    exact (Option.some.inj h).symm
  · intro he hu
    simp only [budgetExhausted, he, hu, Bool.false_eq_true, if_false, if_true] at h
    exact (Option.some.inj h).symm
  · intro he hu
    simp only [budgetExhausted, he, hu, Bool.false_eq_true, if_false] at h
    by_cases hs : samplesExhausted cfg s = true
    · simp only [hs, if_true] at h
      exact ⟨(Option.some.inj h).symm, hs⟩
    · simp only [Bool.not_eq_true] at hs
      simp [hs] at h

/-- C1: A training run interrupted after a checkpoint and resumed on the
same output location is observably equivalent to one that never stopped.  At
the interruption point the on-disk snapshot is `TrainState.save tSave s0`
(written by `_save_training_state`; the in-memory state is mutated
identically), after which the uninterrupted process appends the checkpoint's
metrics record (`_write_metrics_file`) and keeps running, while the resumed
process continues from `TrainState.load tResume` of the snapshot
(`_load_training_state`, which restores every pickled attribute and resets
only the wall-clock anchor).  First conjunct: the save/load round trip
restores every ledger attribute the claim names (and the remaining
counters/flags).  Second conjunct: continuing both runs through the same
`fit` loop yields identical ledger counters
(batches, updates, samples, epoch, best_checkpoint) at every fuel, in
particular when both reach the same update count. -/
theorem resume_roundtrip (cfg : TrainerConfig) (vocabTargetSize : ℕ) (env : FitEnv)
    (fuel : ℕ) (s0 : TrainState) (iter : List Batch) (tSave tResume : ℚ)
    (rec : List (String × PyFloat)) :
    ((TrainState.load tResume (TrainState.save tSave s0)).batches = s0.batches ∧
      (TrainState.load tResume (TrainState.save tSave s0)).updates = s0.updates ∧
      (TrainState.load tResume (TrainState.save tSave s0)).samples = s0.samples ∧
      (TrainState.load tResume (TrainState.save tSave s0)).epoch = s0.epoch ∧
      (TrainState.load tResume (TrainState.save tSave s0)).bestCheckpoint =
        s0.bestCheckpoint ∧
      (TrainState.load tResume (TrainState.save tSave s0)).checkpoint = s0.checkpoint ∧
      (TrainState.load tResume (TrainState.save tSave s0)).bestMetric = s0.bestMetric ∧
      (TrainState.load tResume (TrainState.save tSave s0)).bestMetricHistory =
        s0.bestMetricHistory ∧
      (TrainState.load tResume (TrainState.save tSave s0)).numNotImproved =
        s0.numNotImproved ∧
      (TrainState.load tResume (TrainState.save tSave s0)).converged = s0.converged ∧
      (TrainState.load tResume (TrainState.save tSave s0)).diverged = s0.diverged ∧
      (TrainState.load tResume (TrainState.save tSave s0)).metrics = s0.metrics) ∧
    ledgerCounters
        (fitLoop cfg vocabTargetSize env fuel
          (TrainState.load tResume (TrainState.save tSave s0)) iter) =
      ledgerCounters
        (fitLoop cfg vocabTargetSize env fuel
          (appendMetricsRecord rec (TrainState.save tSave s0)) iter) := by
  refine ⟨⟨rfl, rfl, rfl, rfl, rfl, rfl, rfl, rfl, rfl, rfl, rfl, rfl⟩, ?_⟩
  have hload : TrainState.load tResume (TrainState.save tSave s0) =
      setUnobs (TrainState.save tSave s0).metrics tResume
        (appendMetricsRecord rec (TrainState.save tSave s0)) := rfl
  rw [hload]
  exact resultMatch_counters
    (fitLoop_setUnobs cfg vocabTargetSize env fuel
      (TrainState.save tSave s0).metrics tResume
      (appendMetricsRecord rec (TrainState.save tSave s0)) iter)

theorem fit_budget_exhaustion_witness :
    fitLoop { sampleConfig with maxEpochs := some 0 } 5 sampleEnv 3
      (TrainState.init "perplexity" (PyFloat.fin 10) 0) [⟨1, 1⟩] =
      Except.ok (TrainState.init "perplexity" (PyFloat.fin 10) 0) :=
  (fit_budget_exhaustion { sampleConfig with maxEpochs := some 0 } 5 sampleEnv 3
    (TrainState.init "perplexity" (PyFloat.fin 10) 0) [⟨1, 1⟩] StopReason.maxEpochs
    (by rfl)).1

end Sockeye
